import Mathlib

/-!
Verification of the IBeanThere cafe verification and gamified engagement core.

Shallow embedding of `apps/be/app/api/v1/cafes.py` and
`apps/be/app/core/fraud_detection.py`: coordinates are rationals (exact
decimal inputs), distance math is over the reals, timestamps are epoch
seconds (naturals) and UTC calendar dates are integer day numbers.
The Supabase datastore is modelled as explicit lists of rows carried in an
`AppState`, and each endpoint is a pure state-passing function.
-/

namespace IBeanThere

/-! ## GeoMath: `calculate_earth_distance` (cafes.py lines 165-191) -/

noncomputable def radians (x : ℝ) : ℝ := x * Real.pi / 180

open Classical in
/-- Python `math.atan2(y, x)`: quadrant-aware arctangent. -/
noncomputable def atan2 (y x : ℝ) : ℝ :=
  if 0 < x then Real.arctan (y / x)
  else if x < 0 then
    (if 0 ≤ y then Real.arctan (y / x) + Real.pi else Real.arctan (y / x) - Real.pi)
  else if 0 < y then Real.pi / 2
  else if y < 0 then -(Real.pi / 2)
  else 0

/-- Haversine distance in meters, mean Earth radius 6371000 m
(cafes.py `calculate_earth_distance`). -/
noncomputable def calculate_earth_distance (lat1 lng1 lat2 lng2 : ℝ) : ℝ :=
  let R : ℝ := 6371000
  let lat1_rad := radians lat1
  let lat2_rad := radians lat2
  let delta_lat := radians (lat2 - lat1)
  let delta_lng := radians (lng2 - lng1)
  let a := Real.sin (delta_lat / 2) ^ 2 +
    Real.cos lat1_rad * Real.cos lat2_rad * Real.sin (delta_lng / 2) ^ 2
  let c := 2 * atan2 (Real.sqrt a) (Real.sqrt (1 - a))
  R * c

/-- Haversine variant used by fraud detection
(fraud_detection.py `calculate_distance_meters`, `asin`-based). -/
noncomputable def calculate_distance_meters (lat1 lng1 lat2 lng2 : ℝ) : ℝ :=
  let lon1 := radians lng1
  let lat1_r := radians lat1
  let lon2 := radians lng2
  let lat2_r := radians lat2
  let dlon := lon2 - lon1
  let dlat := lat2_r - lat1_r
  let a := Real.sin (dlat / 2) ^ 2 +
    Real.cos lat1_r * Real.cos lat2_r * Real.sin (dlon / 2) ^ 2
  let c := 2 * Real.arcsin (Real.sqrt a)
  c * 6371000

/-! ## BeanProgress pure functions (cafes.py lines 1425-1435, 1734-1740) -/

/-- Growth level step function (cafes.py `calculate_growth_level`). -/
def calculate_growth_level (drop_count : ℕ) : ℕ :=
  if drop_count ≥ 15 then 5
  else if drop_count ≥ 10 then 4
  else if drop_count ≥ 5 then 3
  else if drop_count ≥ 3 then 2
  else 1

/-- Next level threshold (cafes.py `get_next_level_threshold`):
first of [3, 5, 10, 15] strictly above the current count, else none. -/
def get_next_level_threshold (current_drops : ℕ) : Option ℕ :=
  if current_drops < 3 then some 3
  else if current_drops < 5 then some 5
  else if current_drops < 10 then some 10
  else if current_drops < 15 then some 15
  else none

/-- Spec-side growth level, written from the spec words
"dropCount≥15→5, ≥10→4, ≥5→3, ≥3→2, else→1" for the refinement
comparison in claim C5. -/
def growthLevelSpec (dropCount : ℕ) : ℕ :=
  if dropCount ≥ 15 then 5
  else if dropCount ≥ 10 then 4
  else if dropCount ≥ 5 then 3
  else if dropCount ≥ 3 then 2
  else 1

/-! ## StreakTracker core (cafes.py lines 1643-1731)

Dates are UTC day numbers (ℤ). `streakRun` is the loop
`for i in range(len(sorted_dates) - 1): gap = s[i] - s[i+1];
 if gap <= 7: current_streak += 1 else: break`. -/

def streakRun : List ℤ → ℕ
  | a :: b :: rest => if a - b ≤ 7 then 1 + streakRun (b :: rest) else 0
  | _ => 0

/-- The descending date list the streak loop runs over: distinct dates
sorted descending, with today inserted at the front when absent
(cafes.py lines 1674-1686). -/
def sortedDropDates (dates : List ℤ) (today : ℤ) : List ℤ :=
  let s := List.insertionSort (fun a b : ℤ => b ≤ a) dates.dedup
  if today ∈ dates then s else today :: s

/-- Current streak recomputed from drop dates (cafes.py lines 1688-1696). -/
def currentStreakOfDates (dates : List ℤ) (today : ℤ) : ℕ :=
  1 + streakRun (sortedDropDates dates today)

/-- Python `data.get("max_streak") or 1` plus the row-missing default
(cafes.py lines 1703-1705): a missing, null or zero stored value reads as 1. -/
def storedOr1 : Option ℕ → ℕ
  | none => 1
  | some m => if m = 0 then 1 else m

/-- Written max streak: `max(current_streak, stored_max_streak)`
(cafes.py line 1707). -/
def maxStreakUpdate (current : ℕ) (stored : Option ℕ) : ℕ :=
  max current (storedOr1 stored)

/-- Iterated effect of successive streak recomputes on the stored
`max_streak` column: each accepted drop folds `maxStreakUpdate` over the
newly computed current streak. -/
def runMaxStreak (init : Option ℕ) (currents : List ℕ) : Option ℕ :=
  currents.foldl (fun s c => some (maxStreakUpdate c s)) init

/-! ## FraudHeuristic pure functions (fraud_detection.py lines 25-40) -/

/-- Speed in km/h (fraud_detection.py `calculate_speed_kmh`); the
`time_seconds <= 0` infinity branch is unreachable from
`check_location_consistency`, which guards the division by `Δt > 0`. -/
noncomputable def calculate_speed_kmh (distance_meters : ℝ) (time_seconds : ℝ) : ℝ :=
  (distance_meters / 1000) / (time_seconds / 3600)

open Classical in
/-- Severity classification (fraud_detection.py `determine_severity`). -/
noncomputable def determine_severity (speed_kmh : ℝ) : String :=
  if speed_kmh > 1000 then "high"
  else if speed_kmh > 200 then "medium"
  else if speed_kmh > 100 then "low"
  else "none"

/-! ## Data model (logical row layouts of `cafes`, `cafe_checkins`,
`cafe_beans`, `cafe_bean_drops`, `fraud_logs`, `users`) -/

/-- One `vanguard_ids` entry: `{user_id, role, verified_at}`. -/
structure VanguardEntry where
  user_id : ℕ
  role : String
  verified_at : ℕ
deriving Repr, DecidableEq

structure CafeRecord where
  id : ℕ
  name : String
  address : String
  latitude : ℚ
  longitude : ℚ
  status : String
  verification_count : ℕ
  navigator_id : Option ℕ
  vanguard_ids : List VanguardEntry
  verified_at : Option ℕ
  normalized_name : String
  normalized_address : String
  slug : String
deriving Repr, DecidableEq

structure CheckIn where
  cafe_id : ℕ
  user_id : ℕ
  checkin_order : ℕ
  founding_role : String
  triggered_verification : Bool
deriving Repr, DecidableEq

structure Bean where
  id : ℕ
  cafe_id : ℕ
  user_id : ℕ
  drop_count : ℕ
  growth_level : ℕ
  last_latitude : ℚ
  last_longitude : ℚ
  first_dropped_at : ℕ
  last_dropped_at : ℕ
deriving Repr, DecidableEq

structure BeanDrop where
  bean_id : ℕ
  user_id : ℕ
  cafe_id : ℕ
  latitude : ℚ
  longitude : ℚ
  dropped_at : ℕ
deriving Repr, DecidableEq

structure UserRow where
  id : ℕ
  current_streak : Option ℕ
  max_streak : Option ℕ
  last_drop_date : Option ℤ
deriving Repr, DecidableEq

/-- Advisory fraud log row; the json detail fields carry no decision
logic and are not modelled. -/
structure FraudLog where
  user_id : ℕ
  action_type : String
  current_lat : ℚ
  current_lng : ℚ
  severity : String
deriving Repr, DecidableEq

/-- All datastore tables touched by the core, as explicit row lists;
`nextId` models the store assigning fresh primary keys on insert. -/
structure AppState where
  cafes : List CafeRecord
  checkins : List CheckIn
  beans : List Bean
  beanDrops : List BeanDrop
  users : List UserRow
  fraudLogs : List FraudLog
  nextId : ℕ
deriving Repr, DecidableEq

/-- UTC calendar date (day number) of an epoch-seconds timestamp,
Python `datetime.date()` under UTC. -/
def dateOf (t : ℕ) : ℤ := ((t / 86400 : ℕ) : ℤ)

def findCafe (st : AppState) (cafeId : ℕ) : Option CafeRecord :=
  st.cafes.find? (fun c => c.id == cafeId)

/-- The `cafe_beans` row for (cafe, user): `bean_result.data[0] if
bean_result.data else None` (cafes.py lines 1502-1509). -/
def findBean (st : AppState) (cafeId userId : ℕ) : Option Bean :=
  (st.beans.filter (fun b => b.cafe_id == cafeId && b.user_id == userId)).head?

def findUser (st : AppState) (userId : ℕ) : Option UserRow :=
  st.users.find? (fun u => u.id == userId)

/-! ## CafeRegistry: duplicate detection (cafes.py lines 193-245) -/

/-- Bounding-box prefetch filter of `check_nearby_cafes` (lines 214-228).
The longitude offset divides by `111000 * abs(lat)` when `lat != 0` —
transcribed exactly as the source computes it. -/
def inBoundingBox (lat lng threshold_meters : ℚ) (c : CafeRecord) : Bool :=
  let lat_offset := threshold_meters / 111000
  let lng_offset := if lat ≠ 0 then threshold_meters / (111000 * |lat|)
                    else threshold_meters / 111000
  decide (lat - lat_offset ≤ c.latitude) && decide (c.latitude ≤ lat + lat_offset) &&
  decide (lng - lng_offset ≤ c.longitude) && decide (c.longitude ≤ lng + lng_offset)

open Classical in
/-- Exact-distance confirmation loop of `check_nearby_cafes` (lines
230-239): first candidate strictly within the threshold. -/
noncomputable def findCafeWithinThreshold (lat lng threshold : ℚ) :
    List CafeRecord → Option CafeRecord
  | [] => none
  | c :: rest =>
    if calculate_earth_distance (lat : ℝ) (lng : ℝ) (c.latitude : ℝ) (c.longitude : ℝ) <
        (threshold : ℝ) then some c
    else findCafeWithinThreshold lat lng threshold rest

/-- Duplicate detection (cafes.py `check_nearby_cafes`): bounding-box
prefetch over the `cafes` table, then Haversine confirmation.
`query_fails` models the datastore raising inside the `try` block, which
the bare `except` turns into `None` (lines 243-245). -/
noncomputable def check_nearby_cafes (lat lng : ℚ) (threshold_meters : ℚ)
    (cafes : List CafeRecord) (query_fails : Bool) : Option CafeRecord :=
  if query_fails then none
  else findCafeWithinThreshold lat lng threshold_meters
    (cafes.filter (inBoundingBox lat lng threshold_meters))

/-! ## CafeRegistry: slug generation (cafes.py lines 41-58) -/

/-- Character class `[a-z0-9]` of the slug regexes (cafes.py lines 36-37). -/
def isSlugChar (c : Char) : Bool :=
  ('a' ≤ c && c ≤ 'z') || ('0' ≤ c && c ≤ '9')

/-- Python `re.sub(r'-{2,}', '-', slug)` (cafes.py line 37): collapse
every run of two or more hyphens to a single hyphen (of two adjacent
hyphens, the first is dropped). -/
def hyphenCollapse : List Char → List Char
  | [] => []
  | [c] => [c]
  | c :: d :: rest =>
    if c == '-' && d == '-' then hyphenCollapse (d :: rest)
    else c :: hyphenCollapse (d :: rest)

/-- Slug normalization (cafes.py `slugify`, lines 34-38):
`name.lower().strip()`, then `re.sub(r'[^a-z0-9]+', '-', slug)` (here as a
per-character replacement followed by the line-37 hyphen collapse, which
yields the same string), then `.strip('-')`, with `'cafe'` for an empty
result. Case mapping is ASCII; non-ASCII letters fall outside `[a-z0-9]`
and are replaced by hyphens either way. -/
def slugify (name : String) : String :=
  let slug := name.toLower.trim
  let replaced := slug.toList.map (fun c => if isSlugChar c then c else '-')
  let collapsed := hyphenCollapse replaced
  let stripped :=
    ((collapsed.dropWhile (fun c => c == '-')).reverse.dropWhile
      (fun c => c == '-')).reverse
  let s := String.mk stripped
  if s = "" then "cafe" else s

/-- Unique slug loop (cafes.py `generate_unique_slug`, called with
`exclude_id=None`): try `base`, then `base-1`, `base-2`, … until no row
has the candidate slug. The while-loop terminates within
`cafes.length + 1` candidates, since the candidates are pairwise distinct
and only `cafes.length` slugs are taken. -/
def generate_unique_slug (name : String) (cafes : List CafeRecord) : String :=
  let base := slugify name
  let candidate := fun (k : ℕ) => if k = 0 then base else base ++ "-" ++ toString k
  let taken := fun (s : String) => cafes.any (fun c => c.slug == s)
  match (List.range (cafes.length + 1)).find? (fun k => !taken (candidate k)) with
  | some k => candidate k
  | none => candidate (cafes.length + 1)

/-! ## CafeRegistry: registration (cafes.py lines 666-890) -/

/-- The raw `user_location` mapping: `{lat, lng}`, either key possibly
absent. -/
structure UserLocation where
  lat : Option ℚ
  lng : Option ℚ
deriving Repr, DecidableEq

structure CafeRegistrationRequest where
  name : String
  latitude : ℚ
  longitude : ℚ
  address : Option String
  user_location : Option UserLocation
deriving Repr, DecidableEq

/-- Reverse-geocode result consumed by registration. -/
structure OsmData where
  road : Option String
  display_name : String
deriving Repr, DecidableEq

/-- External collaborator outcomes for one registration request. -/
structure RegEnv where
  osm_data : Option OsmData
  nearby_query_fails : Bool
deriving Repr, DecidableEq

inductive RegError where
  | LocationTooFar
  | InvalidLocation
  | AlreadyCheckedIn
deriving Repr, DecidableEq

structure RegResult where
  message : String
  cafe : CafeRecord
  check_in : CheckIn
  triggered_verification : Bool
deriving Repr, DecidableEq

/-- Coordinates the 50 m gate actually uses (cafes.py lines 684-688):
`user_lat = loc.get("lat"); user_lng = loc.get("lng");
 if user_lat and user_lng:` — Python truthiness skips the gate whenever
either value is absent or equals 0. -/
def userLocCoords : Option UserLocation → Option (ℚ × ℚ)
  | none => none
  | some l =>
    match l.lat, l.lng with
    | some a, some b => if a ≠ 0 ∧ b ≠ 0 then some (a, b) else none
    | _, _ => none

/-- Python `not osm_data.get('road')`: road absent or empty. -/
def roadMissing (osm : OsmData) : Bool :=
  match osm.road with
  | none => true
  | some r => r == ""

/-- Address auto-fill (cafes.py lines 714-716):
`if not request.address and osm_data: request.address = display_name`. -/
def effectiveAddress (reqAddress : Option String) (osm : OsmData) : Option String :=
  match reqAddress with
  | none => some osm.display_name
  | some a => if a = "" then some osm.display_name else some a

/-- Existing-cafe path of `register_cafe` (cafes.py lines 726-799):
duplicate-check-in guard, counter increment, role assignment, and the
founding-crew recording that fires only on the verification-triggering
check-in. -/
def recordCheckInPath (st : AppState) (existing : CafeRecord) (userId : ℕ)
    (now : ℕ) : Except RegError (AppState × RegResult) :=
  if st.checkins.any (fun ci => ci.cafe_id == existing.id && ci.user_id == userId) then
    .error .AlreadyCheckedIn
  else
    let current_count := existing.verification_count
    let new_count := current_count + 1
    let checkin_order := new_count
    let role := if checkin_order = 1 then "navigator" else "vanguard"
    let triggered := decide (new_count = 3)
    let checkin : CheckIn :=
      { cafe_id := existing.id
        user_id := userId
        checkin_order := checkin_order
        founding_role := role
        triggered_verification := triggered }
    let base := { existing with verification_count := new_count }
    let updated :=
      if new_count = 3 then
        if checkin_order = 1 then
          { base with
            status := "verified"
            verified_at := some now
            navigator_id := some userId }
        else
          { base with
            status := "verified"
            verified_at := some now
            vanguard_ids := existing.vanguard_ids ++
              [{ user_id := userId
                 role := "vanguard_" ++ toString checkin_order
                 verified_at := now }] }
      else base
    let st' := { st with
      cafes := st.cafes.map (fun c => if c.id == existing.id then updated else c)
      checkins := st.checkins ++ [checkin] }
    .ok (st', { message := "Check-in recorded"
                cafe := updated
                check_in := checkin
                triggered_verification := triggered })

/-- New-cafe path of `register_cafe` (cafes.py lines 801-879): insert the
pending cafe with the reporter as navigator, the order-1 check-in, and the
auto-seeded bean with its drop event. -/
def registerNewCafePath (st : AppState) (req : CafeRegistrationRequest)
    (address : Option String) (userId : ℕ) (now : ℕ) : AppState × RegResult :=
  let normalized_name := req.name.toLower.trim
  let normalized_address := match address with
    | some a => a.toLower.trim
    | none => ""
  let slug := generate_unique_slug req.name st.cafes
  let cafe : CafeRecord :=
    { id := st.nextId
      name := req.name
      address := address.getD ""
      latitude := req.latitude
      longitude := req.longitude
      status := "pending"
      verification_count := 1
      navigator_id := some userId
      vanguard_ids := []
      verified_at := none
      normalized_name := normalized_name
      normalized_address := normalized_address
      slug := slug }
  let checkin : CheckIn :=
    { cafe_id := cafe.id
      user_id := userId
      checkin_order := 1
      founding_role := "navigator"
      triggered_verification := false }
  let bean : Bean :=
    { id := st.nextId + 1
      cafe_id := cafe.id
      user_id := userId
      drop_count := 1
      growth_level := 1
      last_latitude := req.latitude
      last_longitude := req.longitude
      first_dropped_at := now
      last_dropped_at := now }
  let drop : BeanDrop :=
    { bean_id := bean.id
      user_id := userId
      cafe_id := cafe.id
      latitude := req.latitude
      longitude := req.longitude
      dropped_at := now }
  ({ st with
     cafes := st.cafes ++ [cafe]
     checkins := st.checkins ++ [checkin]
     beans := st.beans ++ [bean]
     beanDrops := st.beanDrops ++ [drop]
     nextId := st.nextId + 2 },
   { message := "Cafe registered successfully"
     cafe := cafe
     check_in := checkin
     triggered_verification := false })

open Classical in
/-- Full `register_cafe` endpoint (cafes.py lines 666-890): 50 m reporter
gate (skipped when `user_location` coordinates are absent or zero),
geocoder road validation with address auto-fill, 25 m duplicate
detection, then the existing- or new-cafe path. -/
noncomputable def register_cafe (st : AppState) (req : CafeRegistrationRequest)
    (userId : ℕ) (env : RegEnv) (now : ℕ) : Except RegError (AppState × RegResult) :=
  let gateTooFar : Prop :=
    match userLocCoords req.user_location with
    | some (ula, uln) =>
      calculate_earth_distance (ula : ℝ) (uln : ℝ) (req.latitude : ℝ) (req.longitude : ℝ) > 50
    | none => False
  if gateTooFar then .error .LocationTooFar
  else
    match env.osm_data with
    | none => .error .InvalidLocation
    | some osm =>
      if roadMissing osm then .error .InvalidLocation
      else
        let address := effectiveAddress req.address osm
        match check_nearby_cafes req.latitude req.longitude 25 st.cafes
            env.nearby_query_fails with
        | some existing => recordCheckInPath st existing userId now
        | none => .ok (registerNewCafePath st req address userId now)

/-! ## FraudHeuristic over the state (fraud_detection.py lines 123-197) -/

open Classical in
/-- Rows appended to `fraud_logs` by `check_location_consistency`:
the most recently updated bean gives the previous location (its cafe's
coordinates) and time; severity stays at its initial "low" unless both
previous coordinates are truthy and the elapsed time is positive, and a
row is written only when severity is not "none"
(fraud_detection.py lines 74-113, 181-193). -/
noncomputable def fraudLogAdditions (st : AppState) (userId : ℕ) (current_lat current_lng : ℚ)
    (now : ℕ) : List FraudLog :=
  let userBeans := st.beans.filter (fun b => b.user_id == userId)
  let sortedBeans := List.insertionSort
    (fun a b : Bean => b.last_dropped_at ≤ a.last_dropped_at) userBeans
  match sortedBeans.head? with
  | none => []
  | some bean =>
    match st.cafes.find? (fun c => c.id == bean.cafe_id) with
    | none => []
    | some cafe =>
      let severity :=
        if cafe.latitude ≠ 0 ∧ cafe.longitude ≠ 0 then
          let time_delta : ℤ := (now : ℤ) - (bean.last_dropped_at : ℤ)
          if 0 < time_delta then
            let distance_m : ℤ :=
              ⌊calculate_distance_meters (current_lat : ℝ) (current_lng : ℝ)
                (cafe.latitude : ℝ) (cafe.longitude : ℝ)⌋
            determine_severity (calculate_speed_kmh (distance_m : ℝ) (time_delta : ℝ))
          else "low"
        else "low"
      if severity = "none" then []
      else [{ user_id := userId
              action_type := "drop_bean"
              current_lat := current_lat
              current_lng := current_lng
              severity := severity }]

/-- Advisory fraud check (fraud_detection.py `check_location_consistency`):
only ever writes `fraud_logs`, never blocks. -/
noncomputable def check_location_consistency (st : AppState) (userId : ℕ)
    (current_lat current_lng : ℚ) (now : ℕ) : AppState :=
  { st with fraudLogs := st.fraudLogs ++ fraudLogAdditions st userId current_lat current_lng now }

/-! ## StreakTracker over the state (cafes.py lines 1643-1731) -/

structure StreakInfo where
  current_streak : ℕ
  max_streak : ℕ
  last_drop_date : ℤ
  streak_active : Bool
deriving Repr, DecidableEq

/-- Streak recompute (cafes.py `calculate_user_streak`): last 100 drop
events give the distinct-date set; the `users` row is updated with the new
current/max streak. A missing `users` row makes the `.single()` lookup
raise, which the surrounding `except` turns into the default response with
no write (lines 1723-1731); an empty drop history returns the first-drop
default without a write (lines 1665-1671). -/
def calculate_user_streak (st : AppState) (userId : ℕ) (now : ℕ) :
    AppState × StreakInfo :=
  let today := dateOf now
  let userDrops := (st.beanDrops.filter (fun d => d.user_id == userId)).map
    (fun d => d.dropped_at)
  let recentDrops := (List.insertionSort (fun a b : ℕ => b ≤ a) userDrops).take 100
  if recentDrops.isEmpty then
    (st, { current_streak := 1, max_streak := 1, last_drop_date := today,
           streak_active := true })
  else
    let dates := recentDrops.map dateOf
    let current_streak := currentStreakOfDates dates today
    match findUser st userId with
    | none =>
      (st, { current_streak := 1, max_streak := 1, last_drop_date := today,
             streak_active := true })
    | some row =>
      let new_max_streak := maxStreakUpdate current_streak row.max_streak
      let st' := { st with users := st.users.map (fun u =>
        if u.id == userId then
          { u with
            current_streak := some current_streak
            max_streak := some new_max_streak
            last_drop_date := some today }
        else u) }
      (st', { current_streak := current_streak, max_streak := new_max_streak,
              last_drop_date := today, streak_active := true })

/-! ## FoundingCrewAssigner: bean-drop verification path
(cafes.py lines 1577-1616) -/

/-- Vanguard list builder (cafes.py lines 1597-1606): every one of the
first three droppers whose id differs from the recorded navigator gets
role `vanguard_{idx+1}` with `idx` its 0-based position among those
droppers ordered by `first_dropped_at`. A null navigator matches nobody
(Python `user_id != None` is always true). -/
def buildVanguards (founding_drops : List Bean) (navigator_id : Option ℕ)
    (now : ℕ) : List VanguardEntry :=
  founding_drops.enum.filterMap (fun p =>
    if (match navigator_id with
        | some n => p.2.user_id != n
        | none => true) then
      some { user_id := p.2.user_id
             role := "vanguard_" ++ toString (p.1 + 1)
             verified_at := now }
    else none)

/-- Auto-verification step of `drop_bean` (cafes.py lines 1577-1616):
while the cafe is pending and at least 3 distinct users hold beans there,
replace `vanguard_ids`, set `status="verified"`, and report the trigger.
`navigator_id` is read but never written. -/
def beanVerificationStep (st : AppState) (cafeId : ℕ) (now : ℕ) :
    AppState × Bool :=
  match st.cafes.find? (fun c => c.id == cafeId) with
  | none => (st, false)
  | some cafe =>
    if cafe.status = "pending" then
      let cafeBeans := st.beans.filter (fun b => b.cafe_id == cafeId)
      let unique_user_ids := (cafeBeans.map (fun b => b.user_id)).dedup
      if 3 ≤ unique_user_ids.length then
        let founding_drops := (List.insertionSort
          (fun a b : Bean => a.first_dropped_at ≤ b.first_dropped_at) cafeBeans).take 3
        let vanguard_ids := buildVanguards founding_drops cafe.navigator_id now
        let updated := { cafe with
          status := "verified"
          verified_at := some now
          vanguard_ids := vanguard_ids }
        ({ st with cafes := st.cafes.map (fun c => if c.id == cafeId then updated else c) },
         true)
      else (st, false)
    else (st, false)

/-! ## BeanProgress: `drop_bean` endpoint (cafes.py lines 1447-1640) -/

inductive DropError where
  | CafeNotFound
  | DistanceTooFar
  | AlreadyDroppedToday
deriving Repr, DecidableEq

structure DropResult where
  drop_count : ℕ
  growth_level : ℕ
  leveled_up : Bool
  next_level_at : Option ℕ
  streak : StreakInfo
  triggered_verification : Bool
deriving Repr, DecidableEq

/-- Daily-limit test (cafes.py lines 1511-1523): the existing bean's
`last_dropped_at` falls on today's UTC date. -/
def droppedToday (existing : Option Bean) (now : ℕ) : Bool :=
  match existing with
  | some b => dateOf b.last_dropped_at == dateOf now
  | none => false

/-- Bean create-or-update (cafes.py lines 1525-1558). Returns the new
state plus `(bean_id, drop_count, growth_level, old_level)`;
`old_level = 0` when there was no prior bean (line 1571). -/
def applyBeanUpsert (st : AppState) (existing : Option Bean) (cafeId userId : ℕ)
    (user_lat user_lng : ℚ) (now : ℕ) : AppState × ℕ × ℕ × ℕ × ℕ :=
  match existing with
  | some b =>
    let new_drop_count := b.drop_count + 1
    let new_growth_level := calculate_growth_level new_drop_count
    ({ st with beans := st.beans.map (fun x =>
        if x.id == b.id then
          { x with
            drop_count := new_drop_count
            growth_level := new_growth_level
            last_latitude := user_lat
            last_longitude := user_lng
            last_dropped_at := now }
        else x) },
     b.id, new_drop_count, new_growth_level, b.growth_level)
  | none =>
    let new_bean : Bean :=
      { id := st.nextId
        cafe_id := cafeId
        user_id := userId
        drop_count := 1
        growth_level := 1
        last_latitude := user_lat
        last_longitude := user_lng
        first_dropped_at := now
        last_dropped_at := now }
    ({ st with beans := st.beans ++ [new_bean], nextId := st.nextId + 1 },
     new_bean.id, 1, 1, 0)

open Classical in
/-- Full `drop_bean` endpoint (cafes.py lines 1447-1640): cafe lookup,
50 m gate, advisory fraud check, daily limit, bean upsert, drop-event
append, streak recompute, bean-drop auto-verification. -/
noncomputable def drop_bean (st : AppState) (cafeId userId : ℕ)
    (user_lat user_lng : ℚ) (now : ℕ) : AppState × Except DropError DropResult :=
  match st.cafes.find? (fun c => c.id == cafeId) with
  | none => (st, .error .CafeNotFound)
  | some cafe =>
    if calculate_earth_distance (user_lat : ℝ) (user_lng : ℝ)
        (cafe.latitude : ℝ) (cafe.longitude : ℝ) > 50 then
      (st, .error .DistanceTooFar)
    else
      let st1 := check_location_consistency st userId user_lat user_lng now
      let existing := findBean st1 cafeId userId
      if droppedToday existing now then (st1, .error .AlreadyDroppedToday)
      else
        let upsert := applyBeanUpsert st1 existing cafeId userId user_lat user_lng now
        let st2 := upsert.1
        let bean_id := upsert.2.1
        let drop_count := upsert.2.2.1
        let growth_level := upsert.2.2.2.1
        let old_level := upsert.2.2.2.2
        let st3 := { st2 with beanDrops := st2.beanDrops ++
          [{ bean_id := bean_id
             user_id := userId
             cafe_id := cafeId
             latitude := user_lat
             longitude := user_lng
             dropped_at := now }] }
        let leveled_up := decide (old_level < growth_level)
        let streakStep := calculate_user_streak st3 userId now
        let st4 := streakStep.1
        let verifyStep := beanVerificationStep st4 cafeId now
        (verifyStep.1,
         .ok { drop_count := drop_count
               growth_level := growth_level
               leveled_up := leveled_up
               next_level_at := get_next_level_threshold drop_count
               streak := streakStep.2
               triggered_verification := verifyStep.2 })

/-! ## Scenario plumbing and concrete fixtures -/

/-- Two further users check in at an already-registered cafe: the second
caller sees the cafe row as updated by the first (the existing-cafe path
re-reads the stored row, which `recordCheckInPath` returns). -/
def twoMoreCheckIns (st : AppState) (cafe : CafeRecord) (u2 u3 : ℕ)
    (now now' : ℕ) : Except RegError (AppState × RegResult) :=
  match recordCheckInPath st cafe u2 now with
  | .error e => .error e
  | .ok (st2, r2) => recordCheckInPath st2 r2.cafe u3 now'

/-- A freshly registered pending cafe (id 1, navigator user 10). -/
def cafeK : CafeRecord :=
  { id := 1
    name := "Cafe K"
    address := "1 King St"
    latitude := 0
    longitude := 0
    status := "pending"
    verification_count := 1
    navigator_id := some 10
    vanguard_ids := []
    verified_at := none
    normalized_name := "cafe k"
    normalized_address := "1 king st"
    slug := "cafe-k" }

/-- State right after user 10 registered `cafeK`. -/
def stK : AppState :=
  { cafes := [cafeK]
    checkins := [{ cafe_id := 1, user_id := 10, checkin_order := 1,
                   founding_role := "navigator", triggered_verification := false }]
    beans := [{ id := 2, cafe_id := 1, user_id := 10, drop_count := 1,
                growth_level := 1, last_latitude := 0, last_longitude := 0,
                first_dropped_at := 100, last_dropped_at := 100 }]
    beanDrops := [{ bean_id := 2, user_id := 10, cafe_id := 1, latitude := 0,
                    longitude := 0, dropped_at := 100 }]
    users := [{ id := 10, current_streak := none, max_streak := none,
                last_drop_date := none },
              { id := 7, current_streak := none, max_streak := none,
                last_drop_date := none }]
    fraudLogs := []
    nextId := 3 }

/-- Pending cafe with recorded navigator user 10, for the bean-drop
verification scenario. -/
def cafeV : CafeRecord := { cafeK with id := 4, navigator_id := some 10 }

/-- Earliest bean at `cafeV`: the navigator, user 10. -/
def bV1 : Bean :=
  { id := 11, cafe_id := 4, user_id := 10, drop_count := 1, growth_level := 1,
    last_latitude := 0, last_longitude := 0, first_dropped_at := 100,
    last_dropped_at := 100 }

/-- Second bean at `cafeV`: user 20. -/
def bV2 : Bean :=
  { id := 12, cafe_id := 4, user_id := 20, drop_count := 1, growth_level := 1,
    last_latitude := 0, last_longitude := 0, first_dropped_at := 200,
    last_dropped_at := 200 }

/-- Third bean at `cafeV`: user 30. -/
def bV3 : Bean :=
  { id := 13, cafe_id := 4, user_id := 30, drop_count := 1, growth_level := 1,
    last_latitude := 0, last_longitude := 0, first_dropped_at := 300,
    last_dropped_at := 300 }

/-- Beans of three distinct droppers at `cafeV`, navigator 10 earliest. -/
def beansV : List Bean := [bV1, bV2, bV3]

def stV : AppState :=
  { cafes := [cafeV]
    checkins := []
    beans := beansV
    beanDrops := []
    users := []
    fraudLogs := []
    nextId := 14 }

/-- Same scenario but with no navigator recorded on the cafe row. -/
def stVnoNav : AppState :=
  { stV with cafes := [{ cafeV with navigator_id := none }] }

/-- Existing cafe 0.0002 degrees of longitude (about 16 m) east of the
claim C3 query point (43.4723, -80.5449). -/
def cafeC3 : CafeRecord :=
  { id := 9
    name := "Settlement Co"
    address := "Waterloo"
    latitude := 43.4723
    longitude := -80.5447
    status := "verified"
    verification_count := 3
    navigator_id := none
    vanguard_ids := []
    verified_at := none
    normalized_name := "settlement co"
    normalized_address := "waterloo"
    slug := "settlement-co" }

/-- A concrete registration request away from any fixture cafe. -/
def reqW : CafeRegistrationRequest :=
  { name := "New Cafe"
    latitude := 43.4723
    longitude := -80.5449
    address := none
    user_location := none }

/-- A concrete registration request at the exact coordinates of `cafeK`. -/
def reqZ : CafeRegistrationRequest :=
  { name := "Duplicate Cafe"
    latitude := 0
    longitude := 0
    address := none
    user_location := none }

/-- A geocoder result that resolves to a road. -/
def osmW : OsmData :=
  { road := some "King St", display_name := "1 King St N, Waterloo" }

/-! ## Helper lemmas -/

lemma calculate_earth_distance_eq (lat1 lng1 lat2 lng2 : ℝ) :
    calculate_earth_distance lat1 lng1 lat2 lng2 =
    6371000 * (2 * atan2
      (Real.sqrt (Real.sin (radians (lat2 - lat1) / 2) ^ 2 +
        Real.cos (radians lat1) * Real.cos (radians lat2) *
          Real.sin (radians (lng2 - lng1) / 2) ^ 2))
      (Real.sqrt (1 - (Real.sin (radians (lat2 - lat1) / 2) ^ 2 +
        Real.cos (radians lat1) * Real.cos (radians lat2) *
          Real.sin (radians (lng2 - lng1) / 2) ^ 2)))) := rfl

lemma radians_zero_of_self (x : ℝ) : radians (x - x) = 0 := by
  unfold radians; rw [sub_self]; ring

lemma calculate_earth_distance_self (lat lng : ℝ) :
    calculate_earth_distance lat lng lat lng = 0 := by
  rw [calculate_earth_distance_eq, radians_zero_of_self, radians_zero_of_self]
  norm_num [Real.sin_zero, Real.sqrt_zero, Real.sqrt_one, atan2, Real.arctan_zero]

lemma arctan_le_of_nonneg {t : ℝ} (ht : 0 ≤ t) : Real.arctan t ≤ t := by
  have h1 : Real.arctan t < Real.pi / 2 := Real.arctan_lt_pi_div_two t
  have h2 : (0 : ℝ) ≤ Real.arctan t := by
    have := Real.arctan_strictMono.monotone ht
    rwa [Real.arctan_zero] at this
  calc Real.arctan t ≤ Real.tan (Real.arctan t) := Real.le_tan h2 h1
    _ = t := Real.tan_arctan t

/-! ## Claim theorems -/

/-- Claim C8: `calculate_earth_distance` is symmetric in its two
coordinate pairs, and the distance from any coordinate to itself is 0. -/
theorem earth_distance_symm_and_self_zero :
    (∀ lat1 lng1 lat2 lng2 : ℝ,
      calculate_earth_distance lat1 lng1 lat2 lng2 =
        calculate_earth_distance lat2 lng2 lat1 lng1) ∧
    (∀ lat lng : ℝ, calculate_earth_distance lat lng lat lng = 0) := by
  constructor
  · intro lat1 lng1 lat2 lng2
    rw [calculate_earth_distance_eq, calculate_earth_distance_eq]
    have e1 : radians (lat1 - lat2) = -(radians (lat2 - lat1)) := by
      unfold radians; ring
    have e2 : radians (lng1 - lng2) = -(radians (lng2 - lng1)) := by
      unfold radians; ring
    rw [e1, e2, neg_div, neg_div, Real.sin_neg, Real.sin_neg, neg_sq, neg_sq]
    have e3 : Real.cos (radians lat2) * Real.cos (radians lat1) =
        Real.cos (radians lat1) * Real.cos (radians lat2) := by ring
    rw [e3]
  · exact calculate_earth_distance_self

/-- Claim C5: `calculate_growth_level` equals the spec step function,
takes the listed scenario values, is monotone, and always lands in
{1..5}. -/
theorem growth_level_step_values_monotone_bounded :
    (∀ n : ℕ, calculate_growth_level n = growthLevelSpec n) ∧
    calculate_growth_level 2 = 1 ∧ calculate_growth_level 3 = 2 ∧
    calculate_growth_level 4 = 2 ∧ calculate_growth_level 5 = 3 ∧
    calculate_growth_level 14 = 4 ∧ calculate_growth_level 15 = 5 ∧
    (∀ n : ℕ, calculate_growth_level n ≤ calculate_growth_level (n + 1)) ∧
    (∀ n : ℕ, 1 ≤ calculate_growth_level n ∧ calculate_growth_level n ≤ 5) := by
  refine ⟨fun n => rfl, rfl, rfl, rfl, rfl, rfl, rfl, ?_, ?_⟩
  · intro n
    unfold calculate_growth_level
    split_ifs <;> omega
  · intro n
    unfold calculate_growth_level
    split_ifs <;> omega

lemma storedOr1_pos (s : Option ℕ) : 1 ≤ storedOr1 s := by
  cases s with
  | none => simp [storedOr1]
  | some m =>
    simp only [storedOr1]
    split <;> omega

lemma storedOr1_some_of_pos {v : ℕ} (h : 1 ≤ v) : storedOr1 (some v) = v := by
  simp only [storedOr1]
  rw [if_neg (by omega)]

lemma maxStreakUpdate_pos (c : ℕ) (s : Option ℕ) : 1 ≤ maxStreakUpdate c s :=
  le_trans (storedOr1_pos s) (le_max_right _ _)

lemma storedOr1_maxStreakUpdate (s : Option ℕ) (k : ℕ) :
    storedOr1 s ≤ storedOr1 (some (maxStreakUpdate k s)) := by
  rw [storedOr1_some_of_pos (maxStreakUpdate_pos k s)]
  exact le_max_right _ _

lemma runMaxStreak_cons (init : Option ℕ) (c : ℕ) (cs : List ℕ) :
    runMaxStreak init (c :: cs) = runMaxStreak (some (maxStreakUpdate c init)) cs := rfl

lemma storedOr1_runMaxStreak_mono (cs : List ℕ) :
    ∀ init : Option ℕ, storedOr1 init ≤ storedOr1 (runMaxStreak init cs) := by
  induction cs with
  | nil => intro init; simp [runMaxStreak]
  | cons c cs ih =>
    intro init
    rw [runMaxStreak_cons]
    exact le_trans (storedOr1_maxStreakUpdate init c) (ih _)

/-- Claim C7: a stored `max_streak` of `m ≥ 1` is updated to
`max(current, m)`, the stored value never decreases across recomputes, and
after any sequence of recomputes the stored value is at least every
current streak observed along the way. -/
theorem max_streak_never_decreases (init : Option ℕ) (cs : List ℕ) (m c : ℕ)
    (hm : 1 ≤ m) :
    maxStreakUpdate c (some m) = max c m ∧
    (∀ (s : Option ℕ) (k : ℕ), storedOr1 s ≤ storedOr1 (some (maxStreakUpdate k s))) ∧
    (∀ x ∈ cs, x ≤ storedOr1 (runMaxStreak init cs)) := by
  refine ⟨?_, storedOr1_maxStreakUpdate, ?_⟩
  · unfold maxStreakUpdate
    rw [storedOr1_some_of_pos hm]
  · induction cs generalizing init with
    | nil => intro x hx; cases hx
    | cons c' cs ih =>
      intro x hx
      rw [runMaxStreak_cons]
      rcases List.mem_cons.mp hx with rfl | hmem
      · have h1 : x ≤ maxStreakUpdate x init := le_max_left _ _
        have h2 : maxStreakUpdate x init ≤
            storedOr1 (some (maxStreakUpdate x init)) := by
          rw [storedOr1_some_of_pos (maxStreakUpdate_pos x init)]
        exact le_trans (le_trans h1 h2) (storedOr1_runMaxStreak_mono cs _)
      · exact ih _ x hmem

/-- Witness for C7 at a concrete stored value and recompute sequence. -/
theorem max_streak_never_decreases_witness :
    (1 : ℕ) ≤ 1 ∧
    (maxStreakUpdate 5 (some 1) = max 5 1 ∧
     (∀ (s : Option ℕ) (k : ℕ), storedOr1 s ≤ storedOr1 (some (maxStreakUpdate k s))) ∧
     (∀ x ∈ [2, 1], x ≤ storedOr1 (runMaxStreak none [2, 1]))) :=
  ⟨by decide, max_streak_never_decreases none [2, 1] 1 5 (by decide)⟩

lemma streakRun_gap (l : List ℤ) :
    ∀ i, i < streakRun l → l.getD i 0 - l.getD (i + 1) 0 ≤ 7 := by
  induction l with
  | nil => intro i h; simp [streakRun] at h
  | cons a t ih =>
    cases t with
    | nil => intro i h; simp [streakRun] at h
    | cons b r =>
      intro i h
      by_cases hab : a - b ≤ 7
      · rw [show streakRun (a :: b :: r) = 1 + streakRun (b :: r) from by
          simp [streakRun, hab]] at h
        cases i with
        | zero => simpa using hab
        | succ j =>
          have hj : j < streakRun (b :: r) := by omega
          simpa using ih j hj
      · simp [streakRun, hab] at h

lemma streakRun_stop (l : List ℤ) (h : streakRun l + 1 < l.length) :
    7 < l.getD (streakRun l) 0 - l.getD (streakRun l + 1) 0 := by
  induction l with
  | nil => simp at h
  | cons a t ih =>
    cases t with
    | nil => simp [streakRun] at h
    | cons b r =>
      by_cases hab : a - b ≤ 7
      · have hrw : streakRun (a :: b :: r) = streakRun (b :: r) + 1 := by
          simp [streakRun, hab]; omega
        rw [hrw] at h ⊢
        have h' : streakRun (b :: r) + 1 < (b :: r).length := by
          simp at h; simpa using h
        simpa using ih h'
      · have hrw : streakRun (a :: b :: r) = 0 := by simp [streakRun, hab]
        rw [hrw]
        simp only [zero_add, List.getD_cons_zero, List.getD_cons_succ]
        simp [List.getD_cons_zero]
        omega

lemma streakRun_lt_length (l : List ℤ) (h : l ≠ []) : streakRun l < l.length := by
  induction l with
  | nil => exact absurd rfl h
  | cons a t ih =>
    cases t with
    | nil => simp [streakRun]
    | cons b r =>
      by_cases hab : a - b ≤ 7
      · have h2 := ih (by simp)
        have hrw : streakRun (a :: b :: r) = 1 + streakRun (b :: r) := by
          simp [streakRun, hab]
        rw [hrw]
        simp only [List.length_cons] at h2 ⊢
        omega
      · simp [streakRun, hab]

/-- Claim C6: the streak recompute runs over the distinct dates sorted
descending, starts at 1, adds 1 per adjacent gap of at most 7 days, stops
at the first larger gap, and yields 3 on drop days {1, 3, 9} after day 9's
drop. -/
theorem streak_recompute_rules (dates : List ℤ) (today : ℤ) (h : today ∈ dates) :
    currentStreakOfDates dates today =
      1 + streakRun (List.insertionSort (fun a b : ℤ => b ≤ a) dates.dedup) ∧
    List.Sorted (fun a b : ℤ => b ≤ a) (sortedDropDates dates today) ∧
    1 ≤ currentStreakOfDates dates today ∧
    currentStreakOfDates dates today ≤
      (List.insertionSort (fun a b : ℤ => b ≤ a) dates.dedup).length ∧
    (∀ i, i + 1 < currentStreakOfDates dates today →
      (List.insertionSort (fun a b : ℤ => b ≤ a) dates.dedup).getD i 0 -
        (List.insertionSort (fun a b : ℤ => b ≤ a) dates.dedup).getD (i + 1) 0 ≤ 7) ∧
    (currentStreakOfDates dates today <
        (List.insertionSort (fun a b : ℤ => b ≤ a) dates.dedup).length →
      7 < (List.insertionSort (fun a b : ℤ => b ≤ a) dates.dedup).getD
            (currentStreakOfDates dates today - 1) 0 -
          (List.insertionSort (fun a b : ℤ => b ≤ a) dates.dedup).getD
            (currentStreakOfDates dates today) 0) ∧
    currentStreakOfDates [9, 3, 1] 9 = 3 := by
  have hsd : sortedDropDates dates today =
      List.insertionSort (fun a b : ℤ => b ≤ a) dates.dedup := by
    unfold sortedDropDates
    rw [if_pos h]
  set s := List.insertionSort (fun a b : ℤ => b ≤ a) dates.dedup with hs
  have hcur : currentStreakOfDates dates today = 1 + streakRun s := by
    unfold currentStreakOfDates
    rw [hsd]
  have hne : s ≠ [] := by
    have hd : dates.dedup ≠ [] := by
      intro habs
      have : today ∈ dates.dedup := List.mem_dedup.mpr h
      rw [habs] at this
      cases this
    intro habs
    have := List.perm_insertionSort (fun a b : ℤ => b ≤ a) dates.dedup
    rw [← hs] at this
    rw [habs] at this
    exact hd (List.Perm.nil_eq this).symm
  refine ⟨hcur, ?_, ?_, ?_, ?_, ?_, by decide⟩
  · rw [hsd]
    haveI ht : IsTotal ℤ (fun a b : ℤ => b ≤ a) := ⟨fun a b => le_total b a⟩
    haveI htr : IsTrans ℤ (fun a b : ℤ => b ≤ a) := ⟨fun a b c h1 h2 => le_trans h2 h1⟩
    exact List.sorted_insertionSort _ _
  · rw [hcur]; omega
  · rw [hcur]
    have := streakRun_lt_length s hne
    omega
  · intro i hi
    rw [hcur] at hi
    exact streakRun_gap s i (by omega)
  · intro hlt
    rw [hcur] at hlt ⊢
    have e1 : 1 + streakRun s - 1 = streakRun s := by omega
    have e2 : 1 + streakRun s = streakRun s + 1 := by omega
    rw [e1, e2]
    exact streakRun_stop s (by omega)

/-- Witness for C6 at the scenario-D drop dates {9, 3, 1} with today 9. -/
theorem streak_recompute_rules_witness :
    (9 : ℤ) ∈ [(9 : ℤ), 3, 1] ∧ currentStreakOfDates [9, 3, 1] 9 = 3 :=
  ⟨by decide, (streak_recompute_rules [9, 3, 1] 9 (by decide)).2.2.2.2.2.2⟩

/-- Claim C2 (amended): when a pending cafe's distinct-dropper count
reaches 3, the bean-drop verification path sets `status` to verified and
replaces `vanguard_ids` with entries for the first three droppers by
`first_dropped_at` excluding the recorded navigator, each with role
`vanguard_{position}` for its 1-based position in that drop order (so the
two non-navigator droppers get `vanguard_2` and `vanguard_3` when the
navigator dropped first); `navigator_id` is never assigned by this path. -/
theorem bean_verification_positional_roles
    (st : AppState) (cafeId now : ℕ) (cafe : CafeRecord) (b1 b2 b3 : Bean)
    (hfind : st.cafes.find? (fun c => c.id == cafeId) = some cafe)
    (hpending : cafe.status = "pending")
    (hnav : cafe.navigator_id = some b1.user_id)
    (hbeans : st.beans.filter (fun b => b.cafe_id == cafeId) = [b1, b2, b3])
    (h12 : b1.first_dropped_at ≤ b2.first_dropped_at)
    (h23 : b2.first_dropped_at ≤ b3.first_dropped_at)
    (hd12 : b1.user_id ≠ b2.user_id) (hd13 : b1.user_id ≠ b3.user_id)
    (hd23 : b2.user_id ≠ b3.user_id) :
    beanVerificationStep st cafeId now =
      ({ st with cafes := st.cafes.map (fun c => if c.id == cafeId then
          { cafe with
            status := "verified"
            verified_at := some now
            vanguard_ids :=
              [{ user_id := b2.user_id, role := "vanguard_2", verified_at := now },
               { user_id := b3.user_id, role := "vanguard_3", verified_at := now }] }
        else c) }, true) := by
  have hsort : List.insertionSort
      (fun a b : Bean => a.first_dropped_at ≤ b.first_dropped_at) [b1, b2, b3] =
      [b1, b2, b3] := by
    simp [List.insertionSort, List.orderedInsert, h12, h23]
  have hded : ([b1, b2, b3].map (fun b => b.user_id)).dedup =
      [b1.user_id, b2.user_id, b3.user_id] := by
    simp [List.dedup_cons_of_not_mem, hd12, hd13, hd23]
  have hvg : buildVanguards [b1, b2, b3] (some b1.user_id) now =
      [{ user_id := b2.user_id, role := "vanguard_2", verified_at := now },
       { user_id := b3.user_id, role := "vanguard_3", verified_at := now }] := by
    unfold buildVanguards
    simp only [List.enum, List.enumFrom, List.filterMap]
    rw [show (b1.user_id != b1.user_id) = false from by simp]
    rw [show (b2.user_id != b1.user_id) = true from by simp [hd12.symm]]
    rw [show (b3.user_id != b1.user_id) = true from by simp [hd13.symm]]
    simp
    exact ⟨rfl, rfl⟩
  unfold beanVerificationStep
  rw [hfind]
  simp only [hpending, if_pos, hbeans, hded, hsort, List.take, hnav, hvg]
  simp

/-- Witness for C2 on the concrete three-dropper state `stV`. -/
theorem bean_verification_positional_roles_witness :
    cafeV.status = "pending" ∧
    beanVerificationStep stV 4 500 =
      ({ stV with cafes := stV.cafes.map (fun c => if c.id == 4 then
          { cafeV with
            status := "verified"
            verified_at := some 500
            vanguard_ids :=
              [{ user_id := bV2.user_id, role := "vanguard_2", verified_at := 500 },
               { user_id := bV3.user_id, role := "vanguard_3", verified_at := 500 }] }
        else c) }, true) :=
  ⟨rfl, bean_verification_positional_roles stV 4 500 cafeV bV1 bV2 bV3
    (by decide) (by decide) (by decide) (by decide) (by decide) (by decide)
    (by decide) (by decide) (by decide)⟩

/-- Counterexample for C2 as stated: with navigator user 10 the earliest
of three droppers, the roles written are `vanguard_2`/`vanguard_3`, not
`vanguard_1`/`vanguard_2`; and with no navigator recorded, `navigator_id`
remains unassigned even though verification triggers. -/
theorem bean_verification_counterexample :
    ((beanVerificationStep stV 4 500).1.cafes.head?).map
        (fun c => c.vanguard_ids.map (fun v => v.role)) =
      some ["vanguard_2", "vanguard_3"] ∧
    ¬ (((beanVerificationStep stV 4 500).1.cafes.head?).map
        (fun c => c.vanguard_ids.map (fun v => v.role)) =
      some ["vanguard_1", "vanguard_2"]) ∧
    ((beanVerificationStep stVnoNav 4 500).1.cafes.head?).map
        (fun c => c.navigator_id) = some none ∧
    (beanVerificationStep stVnoNav 4 500).2 = true := by decide

/-- Claim C1 (amended): after a registered cafe (count 1, empty vanguard
list) receives check-ins from two further distinct fresh users, the third
check-in sets `status="verified"` and `verification_count=3`, but
`vanguard_ids` holds exactly one entry: the third user with role
`vanguard_3`; the second user is recorded only in `cafe_checkins`. -/
theorem checkin_verification_single_vanguard
    (st : AppState) (cafe : CafeRecord) (u2 u3 now now' : ℕ)
    (hvc : cafe.verification_count = 1)
    (hvg : cafe.vanguard_ids = [])
    (hno2 : st.checkins.any (fun ci => ci.cafe_id == cafe.id && ci.user_id == u2) = false)
    (hno3 : st.checkins.any (fun ci => ci.cafe_id == cafe.id && ci.user_id == u3) = false)
    (hne : u2 ≠ u3) :
    (twoMoreCheckIns st cafe u2 u3 now now').toOption.map
      (fun p => (p.2.cafe.status, p.2.cafe.verification_count,
                 p.2.cafe.vanguard_ids, p.2.triggered_verification)) =
    some ("verified", 3,
          [{ user_id := u3, role := "vanguard_3", verified_at := now' }], true) := by
  unfold twoMoreCheckIns
  unfold recordCheckInPath
  rw [hno2]
  simp only [Bool.false_eq_true, if_false, hvc]
  norm_num
  have hno3' : ¬ ∃ x ∈ st.checkins, x.cafe_id = cafe.id ∧ x.user_id = u3 := by
    simpa using hno3
  rw [if_neg (fun h => h.elim hno3' hne)]
  refine ⟨_, _, rfl, rfl, rfl, ?_, rfl⟩
  rw [hvg]
  rfl

/-- Witness for C1 on the concrete state `stK` with users 20 and 30. -/
theorem checkin_verification_single_vanguard_witness :
    cafeK.verification_count = 1 ∧
    (twoMoreCheckIns stK cafeK 20 30 1000 2000).toOption.map
      (fun p => (p.2.cafe.status, p.2.cafe.verification_count,
                 p.2.cafe.vanguard_ids, p.2.triggered_verification)) =
    some ("verified", 3,
          [{ user_id := 30, role := "vanguard_3", verified_at := 2000 }], true) :=
  ⟨rfl, checkin_verification_single_vanguard stK cafeK 20 30 1000 2000
    (by decide) (by decide) (by decide) (by decide) (by decide)⟩

/-- Counterexample for C1 as stated: in the three-check-in scenario the
final `vanguard_ids` has exactly 1 entry, not 2. -/
theorem checkin_verification_counterexample :
    (twoMoreCheckIns stK cafeK 20 30 1000 2000).toOption.map
      (fun p => (p.2.cafe.status, p.2.cafe.verification_count,
                 p.2.cafe.vanguard_ids.length)) = some ("verified", 3, 1) ∧
    ¬ ((twoMoreCheckIns stK cafeK 20 30 1000 2000).toOption.map
        (fun p => p.2.cafe.vanguard_ids.length) = some 2) := by decide

lemma haversine_same_lat_small_dlng (L lng1 lng2 : ℝ) (h : lng2 - lng1 = 0.0002) :
    calculate_earth_distance L lng1 L lng2 < 25 := by
  rw [calculate_earth_distance_eq, radians_zero_of_self]
  have hd : radians (lng2 - lng1) / 2 = Real.pi / 1800000 := by
    rw [h]; unfold radians; norm_num; ring
  rw [hd]
  norm_num [Real.sin_zero]
  set C := Real.cos (radians L) with hC
  set S := Real.sin (Real.pi / 1800000) with hS
  set a := C * C * S ^ 2 with ha
  have hπ : Real.pi < 3.15 := Real.pi_lt_d2
  have hπ0 : (0 : ℝ) < Real.pi := Real.pi_pos
  have hS2 : S ^ 2 ≤ (Real.pi / 1800000) ^ 2 := Real.sin_sq_le_sq
  have hC1 : C ^ 2 ≤ 1 := by rw [hC]; exact Real.cos_sq_le_one (radians L)
  have ha_le : a ≤ (Real.pi / 1800000) ^ 2 := by
    have h1 : a = C ^ 2 * S ^ 2 := by rw [ha]; ring
    rw [h1]
    calc C ^ 2 * S ^ 2 ≤ 1 * (Real.pi / 1800000) ^ 2 :=
          mul_le_mul hC1 hS2 (sq_nonneg _) zero_le_one
      _ = (Real.pi / 1800000) ^ 2 := one_mul _
  have ha0 : 0 ≤ a := by
    have h1 : a = C ^ 2 * S ^ 2 := by rw [ha]; ring
    rw [h1]; positivity
  have ha_tiny : a ≤ 1 / 100000000 := by
    refine le_trans ha_le (le_trans ?_ (by norm_num : ((3.15 : ℝ) / 1800000) ^ 2 ≤ 1 / 100000000))
    have : (0 : ℝ) ≤ Real.pi / 1800000 := by positivity
    have hle : Real.pi / 1800000 ≤ (3.15 : ℝ) / 1800000 := by
      apply div_le_div_of_nonneg_right hπ.le
      norm_num
    exact pow_le_pow_left₀ this hle 2
  have h1a_ge : ((99 : ℝ) / 100) ^ 2 ≤ 1 - a := by nlinarith
  have h1a : ((99 : ℝ) / 100) ≤ Real.sqrt (1 - a) := by
    rw [Real.le_sqrt (by norm_num) (by nlinarith)]
    exact h1a_ge
  have hxpos : (0 : ℝ) < Real.sqrt (1 - a) := lt_of_lt_of_le (by norm_num) h1a
  have hy_le : Real.sqrt a ≤ Real.pi / 1800000 := by
    have h1 := Real.sqrt_le_sqrt ha_le
    rwa [Real.sqrt_sq (by positivity)] at h1
  have hy0 : (0 : ℝ) ≤ Real.sqrt a := Real.sqrt_nonneg a
  have hat : atan2 (Real.sqrt a) (Real.sqrt (1 - a)) =
      Real.arctan (Real.sqrt a / Real.sqrt (1 - a)) := by
    unfold atan2
    rw [if_pos hxpos]
  have harct : Real.arctan (Real.sqrt a / Real.sqrt (1 - a)) ≤
      Real.sqrt a / Real.sqrt (1 - a) :=
    arctan_le_of_nonneg (div_nonneg hy0 hxpos.le)
  have hdivle : Real.sqrt a / Real.sqrt (1 - a) ≤
      (Real.pi / 1800000) / ((99 : ℝ) / 100) :=
    div_le_div₀ (by positivity) hy_le (by norm_num) h1a
  have hbound : atan2 (Real.sqrt a) (Real.sqrt (1 - a)) ≤
      (Real.pi / 1800000) / ((99 : ℝ) / 100) := by
    rw [hat]; exact le_trans harct hdivle
  nlinarith [hbound, hπ, hπ0]

/-- Claim C3 (code bug): the duplicate-detection bounding box divides by
`111000 * abs(lat)` instead of `111000 * cos(radians(abs(lat)))`
(cafes.py line 218, contrast `search_cafes` line 275), making the box far
too narrow away from the equator: at the scenario-A coordinates a cafe
about 16 m east (well inside the 25 m threshold) is excluded by the
prefetch, so `check_nearby_cafes` misses it and returns none. -/
theorem check_nearby_misses_cafe_within_threshold :
    calculate_earth_distance ((43.4723 : ℚ) : ℝ) ((-80.5449 : ℚ) : ℝ)
      ((cafeC3.latitude : ℚ) : ℝ) ((cafeC3.longitude : ℚ) : ℝ) < 25 ∧
    check_nearby_cafes 43.4723 (-80.5449) 25 [cafeC3] false = none := by
  constructor
  · have hlat : ((cafeC3.latitude : ℚ) : ℝ) = ((43.4723 : ℚ) : ℝ) := by
      norm_num [cafeC3]
    rw [hlat]
    apply haversine_same_lat_small_dlng
    have : (cafeC3.longitude : ℚ) = (-80.5447 : ℚ) := by norm_num [cafeC3]
    rw [this]
    push_cast
    norm_num
  · have habs : |(43.4723 : ℚ)| = (43.4723 : ℚ) := abs_of_pos (by norm_num)
    have hlong : ¬ ((cafeC3.longitude : ℚ) ≤ -80.5449 + 25 / (111000 * |(43.4723 : ℚ)|)) := by
      simp only [cafeC3]
      rw [habs]
      norm_num
    have hbox : inBoundingBox 43.4723 (-80.5449) 25 cafeC3 = false := by
      unfold inBoundingBox
      rw [if_pos (by norm_num : (43.4723 : ℚ) ≠ 0)]
      simp [hlong]
    unfold check_nearby_cafes
    rw [if_neg (by simp : ¬ (false = true))]
    rw [show List.filter (inBoundingBox 43.4723 (-80.5449) 25) [cafeC3] = [] from by
      simp [List.filter, hbox]]
    unfold findCafeWithinThreshold
    rfl

lemma registerNewCafePath_ignores_user_location (st : AppState)
    (req : CafeRegistrationRequest) (address : Option String) (userId now : ℕ)
    (x y : Option UserLocation) :
    registerNewCafePath st { req with user_location := x } address userId now =
    registerNewCafePath st { req with user_location := y } address userId now := rfl

/-- Claim C9: a supplied `user_location` with an absent or zero latitude
or longitude disables the 50 m reporter gate entirely: registration
behaves exactly as if no location had been supplied, and in particular
never fails with `LocationTooFar`, regardless of the actual distance. -/
theorem register_gate_skipped_on_zero_coords
    (st : AppState) (req : CafeRegistrationRequest) (userId : ℕ) (env : RegEnv)
    (now : ℕ) (l : UserLocation)
    (h : l.lat = some 0 ∨ l.lng = some 0 ∨ l.lat = none ∨ l.lng = none) :
    register_cafe st { req with user_location := some l } userId env now =
      register_cafe st { req with user_location := none } userId env now ∧
    register_cafe st { req with user_location := some l } userId env now ≠
      .error .LocationTooFar := by
  have hcoords : userLocCoords (some l) = none := by
    obtain ⟨la, ln⟩ := l
    rcases h with h | h | h | h
    · simp only at h; subst h; cases ln <;> simp [userLocCoords]
    · simp only at h; subst h; cases la <;> simp [userLocCoords]
    · simp only at h; subst h; simp [userLocCoords]
    · simp only at h; subst h; cases la <;> simp [userLocCoords]
  have h2 : userLocCoords (none : Option UserLocation) = none := rfl
  have hmain : register_cafe st { req with user_location := some l } userId env now =
      register_cafe st { req with user_location := none } userId env now := by
    unfold register_cafe
    simp only [hcoords, h2]
    rw [if_neg not_false, if_neg not_false]
    rfl
  refine ⟨hmain, ?_⟩
  rw [hmain]
  unfold register_cafe
  simp only [h2]
  rw [if_neg not_false]
  cases env.osm_data with
  | none => simp
  | some osm =>
    simp only []
    by_cases hroad : roadMissing osm = true
    · simp [hroad]
    · simp only [Bool.not_eq_true] at hroad
      simp only [hroad, Bool.false_eq_true, if_false]
      cases check_nearby_cafes req.latitude req.longitude 25 st.cafes
          env.nearby_query_fails with
      | none => simp
      | some existing =>
        simp only []
        unfold recordCheckInPath
        split <;> simp

/-- Claim C10: when the datastore query inside duplicate detection fails,
`check_nearby_cafes` swallows the error and returns none, so
`register_cafe` takes the new-cafe path and inserts a fresh `CafeRecord`
even when an existing cafe lies strictly within 25 m of the requested
coordinates. -/
theorem register_inserts_duplicate_on_query_error
    (st : AppState) (req : CafeRegistrationRequest) (userId : ℕ) (env : RegEnv)
    (now : ℕ) (osm : OsmData) (c : CafeRecord)
    (hfail : env.nearby_query_fails = true)
    (hosm : env.osm_data = some osm)
    (hroad : roadMissing osm = false)
    (hgate : userLocCoords req.user_location = none)
    (hc : c ∈ st.cafes)
    (hdist : calculate_earth_distance (req.latitude : ℝ) (req.longitude : ℝ)
      (c.latitude : ℝ) (c.longitude : ℝ) < 25) :
    check_nearby_cafes req.latitude req.longitude 25 st.cafes env.nearby_query_fails
      = none ∧
    register_cafe st req userId env now =
      .ok (registerNewCafePath st req (effectiveAddress req.address osm) userId now) ∧
    (registerNewCafePath st req (effectiveAddress req.address osm) userId now).1.cafes.length
      = st.cafes.length + 1 := by
  have hnone : check_nearby_cafes req.latitude req.longitude 25 st.cafes
      env.nearby_query_fails = none := by
    unfold check_nearby_cafes
    rw [hfail]
    simp
  refine ⟨hnone, ?_, ?_⟩
  · unfold register_cafe
    simp only [hgate, hosm, hroad, hnone]
    simp
  · unfold registerNewCafePath
    simp

/-- Witness for C9 with a zero latitude in `user_location`. -/
theorem register_gate_skipped_on_zero_coords_witness :
    (UserLocation.mk (some 0) (some 5)).lat = some 0 ∧
    (register_cafe stK { reqW with user_location := some ⟨some 0, some 5⟩ } 7
        ⟨none, false⟩ 0 =
      register_cafe stK { reqW with user_location := none } 7 ⟨none, false⟩ 0 ∧
     register_cafe stK { reqW with user_location := some ⟨some 0, some 5⟩ } 7
        ⟨none, false⟩ 0 ≠ .error .LocationTooFar) :=
  ⟨rfl, register_gate_skipped_on_zero_coords stK reqW 7 ⟨none, false⟩ 0
    ⟨some 0, some 5⟩ (Or.inl rfl)⟩

/-- Witness for C10: query failure plus `cafeK` at the exact requested
coordinates (distance 0 < 25). -/
theorem register_inserts_duplicate_on_query_error_witness :
    cafeK ∈ stK.cafes ∧
    (check_nearby_cafes reqZ.latitude reqZ.longitude 25 stK.cafes
        (RegEnv.mk (some osmW) true).nearby_query_fails = none ∧
     register_cafe stK reqZ 7 ⟨some osmW, true⟩ 0 =
       .ok (registerNewCafePath stK reqZ (effectiveAddress reqZ.address osmW) 7 0) ∧
     (registerNewCafePath stK reqZ (effectiveAddress reqZ.address osmW) 7 0).1.cafes.length
       = stK.cafes.length + 1) :=
  ⟨by decide, register_inserts_duplicate_on_query_error stK reqZ 7 ⟨some osmW, true⟩ 0
    osmW cafeK rfl rfl (by decide) rfl (by decide)
    (by show calculate_earth_distance ((0 : ℚ) : ℝ) ((0 : ℚ) : ℝ)
          ((0 : ℚ) : ℝ) ((0 : ℚ) : ℝ) < 25
        rw [calculate_earth_distance_self]
        norm_num)⟩

lemma check_location_consistency_beans (st : AppState) (u : ℕ) (la ln : ℚ) (now : ℕ) :
    (check_location_consistency st u la ln now).beans = st.beans := rfl

lemma check_location_consistency_users (st : AppState) (u : ℕ) (la ln : ℚ) (now : ℕ) :
    (check_location_consistency st u la ln now).users = st.users := rfl

lemma check_location_consistency_beanDrops (st : AppState) (u : ℕ) (la ln : ℚ) (now : ℕ) :
    (check_location_consistency st u la ln now).beanDrops = st.beanDrops := rfl

lemma check_location_consistency_cafes (st : AppState) (u : ℕ) (la ln : ℚ) (now : ℕ) :
    (check_location_consistency st u la ln now).cafes = st.cafes := rfl

lemma findBean_eq_of_beans_eq {st st' : AppState} (h : st.beans = st'.beans)
    (cafeId userId : ℕ) : findBean st cafeId userId = findBean st' cafeId userId := by
  unfold findBean
  rw [h]

lemma head_filter_map_pres {α : Type} (p : α → Bool) (f : α → α)
    (hpf : ∀ x, p (f x) = p x) (l : List α) (b : α)
    (h : (l.filter p).head? = some b) :
    ((l.map f).filter p).head? = some (f b) := by
  rw [List.filter_map]
  rw [show (p ∘ f) = p from funext hpf]
  induction l with
  | nil => simp at h
  | cons x t ih =>
    by_cases hx : p x = true
    · rw [List.filter_cons_of_pos hx] at h ⊢
      simp at h
      simp [← h]
    · rw [List.filter_cons_of_neg (by simpa using hx)] at h ⊢
      exact ih h

lemma head_filter_append {α : Type} (p : α → Bool) (l : List α) (nb : α)
    (h : (l.filter p).head? = none) (hnb : p nb = true) :
    ((l ++ [nb]).filter p).head? = some nb := by
  rw [List.filter_append]
  rw [List.head?_eq_none_iff] at h
  rw [h]
  simp [hnb]

lemma applyBeanUpsert_cafes (st : AppState) (existing : Option Bean)
    (cafeId userId : ℕ) (lat lng : ℚ) (now : ℕ) :
    (applyBeanUpsert st existing cafeId userId lat lng now).1.cafes = st.cafes := by
  cases existing <;> rfl

lemma applyBeanUpsert_users (st : AppState) (existing : Option Bean)
    (cafeId userId : ℕ) (lat lng : ℚ) (now : ℕ) :
    (applyBeanUpsert st existing cafeId userId lat lng now).1.users = st.users := by
  cases existing <;> rfl

lemma applyBeanUpsert_beanDrops (st : AppState) (existing : Option Bean)
    (cafeId userId : ℕ) (lat lng : ℚ) (now : ℕ) :
    (applyBeanUpsert st existing cafeId userId lat lng now).1.beanDrops = st.beanDrops := by
  cases existing <;> rfl

lemma calculate_user_streak_cafes (st : AppState) (u now : ℕ) :
    (calculate_user_streak st u now).1.cafes = st.cafes := by
  unfold calculate_user_streak
  simp only []
  split
  · rfl
  · split <;> rfl

lemma calculate_user_streak_beans (st : AppState) (u now : ℕ) :
    (calculate_user_streak st u now).1.beans = st.beans := by
  unfold calculate_user_streak
  simp only []
  split
  · rfl
  · split <;> rfl

lemma calculate_user_streak_beanDrops (st : AppState) (u now : ℕ) :
    (calculate_user_streak st u now).1.beanDrops = st.beanDrops := by
  unfold calculate_user_streak
  simp only []
  split
  · rfl
  · split <;> rfl

lemma beanVerificationStep_beans (st : AppState) (cafeId now : ℕ) :
    (beanVerificationStep st cafeId now).1.beans = st.beans := by
  unfold beanVerificationStep
  split
  · rfl
  · split
    · simp only []
      split <;> rfl
    · rfl

lemma beanVerificationStep_users (st : AppState) (cafeId now : ℕ) :
    (beanVerificationStep st cafeId now).1.users = st.users := by
  unfold beanVerificationStep
  split
  · rfl
  · split
    · simp only []
      split <;> rfl
    · rfl

lemma beanVerificationStep_beanDrops (st : AppState) (cafeId now : ℕ) :
    (beanVerificationStep st cafeId now).1.beanDrops = st.beanDrops := by
  unfold beanVerificationStep
  split
  · rfl
  · split
    · simp only []
      split <;> rfl
    · rfl

lemma beanVerificationStep_find_self (st : AppState) (cafeId now : ℕ)
    (cafe : CafeRecord)
    (h : st.cafes.find? (fun c => c.id == cafeId) = some cafe) :
    ∃ cafe', (beanVerificationStep st cafeId now).1.cafes.find?
        (fun c => c.id == cafeId) = some cafe' ∧
      cafe'.latitude = cafe.latitude ∧ cafe'.longitude = cafe.longitude := by
  have hid : (cafe.id == cafeId) = true := by
    have h2 := List.find?_some h
    simpa using h2
  unfold beanVerificationStep
  rw [h]
  simp only []
  by_cases hp : cafe.status = "pending"
  · rw [if_pos hp]
    by_cases hcount : 3 ≤
        (((st.beans.filter (fun b => b.cafe_id == cafeId)).map
          (fun b => b.user_id)).dedup).length
    · rw [if_pos hcount]
      simp only []
      rw [List.find?_map]
      have hpg : ((fun c : CafeRecord => c.id == cafeId) ∘ (fun c =>
          if c.id == cafeId then
            { cafe with
              status := "verified"
              verified_at := some now
              vanguard_ids := buildVanguards
                ((List.insertionSort
                  (fun a b : Bean => a.first_dropped_at ≤ b.first_dropped_at)
                  (st.beans.filter (fun b => b.cafe_id == cafeId))).take 3)
                cafe.navigator_id now }
          else c)) = (fun c : CafeRecord => c.id == cafeId) := by
        funext c
        by_cases hc : (c.id == cafeId) = true
        · simp only [Function.comp, hc, if_pos]
          simpa using hid
        · simp only [Function.comp]
          rw [if_neg hc]
      rw [hpg, h]
      refine ⟨_, rfl, ?_, ?_⟩ <;> simp [hid]
    · rw [if_neg hcount]
      exact ⟨cafe, h, rfl, rfl⟩
  · rw [if_neg hp]
    exact ⟨cafe, h, rfl, rfl⟩

lemma findBean_upsert_some (st : AppState) (b : Bean) (cafeId userId : ℕ)
    (lat lng : ℚ) (now : ℕ)
    (hex : findBean st cafeId userId = some b) :
    findBean (applyBeanUpsert st (some b) cafeId userId lat lng now).1 cafeId userId =
      some { b with
        drop_count := b.drop_count + 1
        growth_level := calculate_growth_level (b.drop_count + 1)
        last_latitude := lat
        last_longitude := lng
        last_dropped_at := now } := by
  have hpf : ∀ x : Bean,
      ((fun y : Bean => y.cafe_id == cafeId && y.user_id == userId)
        (if x.id == b.id then
          { x with
            drop_count := b.drop_count + 1
            growth_level := calculate_growth_level (b.drop_count + 1)
            last_latitude := lat
            last_longitude := lng
            last_dropped_at := now }
        else x)) =
      ((fun y : Bean => y.cafe_id == cafeId && y.user_id == userId) x) := by
    intro x
    by_cases hx : (x.id == b.id) = true
    · rw [if_pos hx]
    · rw [if_neg hx]
  have hmain := head_filter_map_pres
    (fun y : Bean => y.cafe_id == cafeId && y.user_id == userId)
    (fun x : Bean => if x.id == b.id then
      { x with
        drop_count := b.drop_count + 1
        growth_level := calculate_growth_level (b.drop_count + 1)
        last_latitude := lat
        last_longitude := lng
        last_dropped_at := now }
    else x)
    hpf st.beans b hex
  unfold applyBeanUpsert findBean
  simp only []
  rw [hmain]
  simp

lemma findBean_upsert_none (st : AppState) (cafeId userId : ℕ)
    (lat lng : ℚ) (now : ℕ)
    (hex : findBean st cafeId userId = none) :
    findBean (applyBeanUpsert st none cafeId userId lat lng now).1 cafeId userId =
      some { id := st.nextId
             cafe_id := cafeId
             user_id := userId
             drop_count := 1
             growth_level := 1
             last_latitude := lat
             last_longitude := lng
             first_dropped_at := now
             last_dropped_at := now } := by
  unfold applyBeanUpsert findBean
  simp only []
  apply head_filter_append _ _ _ hex
  simp

lemma applyBeanUpsert_count_some (st : AppState) (b : Bean) (cafeId userId : ℕ)
    (lat lng : ℚ) (now : ℕ) :
    (applyBeanUpsert st (some b) cafeId userId lat lng now).2.2.1 =
      b.drop_count + 1 := rfl

lemma applyBeanUpsert_count_none (st : AppState) (cafeId userId : ℕ)
    (lat lng : ℚ) (now : ℕ) :
    (applyBeanUpsert st none cafeId userId lat lng now).2.2.1 = 1 := rfl

lemma drop_bean_success
    (st : AppState) (cafeId userId : ℕ) (lat lng : ℚ) (now : ℕ) (cafe : CafeRecord)
    (hc : st.cafes.find? (fun c => c.id == cafeId) = some cafe)
    (hd : ¬ (calculate_earth_distance (lat : ℝ) (lng : ℝ)
      (cafe.latitude : ℝ) (cafe.longitude : ℝ) > 50))
    (hfresh : droppedToday (findBean st cafeId userId) now = false) :
    (∃ res, (drop_bean st cafeId userId lat lng now).2 = .ok res ∧
      res.drop_count = (match findBean st cafeId userId with
        | some b => b.drop_count + 1
        | none => 1)) ∧
    (∃ b', findBean (drop_bean st cafeId userId lat lng now).1 cafeId userId = some b' ∧
      b'.last_dropped_at = now ∧
      b'.drop_count = (match findBean st cafeId userId with
        | some b => b.drop_count + 1
        | none => 1)) ∧
    (∃ cafe', (drop_bean st cafeId userId lat lng now).1.cafes.find?
        (fun c => c.id == cafeId) = some cafe' ∧
      cafe'.latitude = cafe.latitude ∧ cafe'.longitude = cafe.longitude) := by
  unfold drop_bean
  rw [hc]
  simp only []
  rw [if_neg hd]
  rw [show findBean (check_location_consistency st userId lat lng now) cafeId userId =
    findBean st cafeId userId from rfl]
  rw [hfresh]
  simp only [Bool.false_eq_true, if_false]
  rcases hex : findBean st cafeId userId with _ | b
  · refine ⟨⟨_, rfl, ?_⟩, ?_, ?_⟩
    · rfl
    · unfold findBean
      rw [beanVerificationStep_beans, calculate_user_streak_beans]
      simp only []
      have h2 := findBean_upsert_none (check_location_consistency st userId lat lng now)
        cafeId userId lat lng now hex
      unfold findBean at h2
      rw [h2]
      exact ⟨_, rfl, rfl, rfl⟩
    · apply beanVerificationStep_find_self
      rw [calculate_user_streak_cafes]
      simp only []
      rw [applyBeanUpsert_cafes]
      exact hc
  · refine ⟨⟨_, rfl, ?_⟩, ?_, ?_⟩
    · rfl
    · unfold findBean
      rw [beanVerificationStep_beans, calculate_user_streak_beans]
      simp only []
      have h2 := findBean_upsert_some (check_location_consistency st userId lat lng now) b
        cafeId userId lat lng now hex
      unfold findBean at h2
      rw [h2]
      exact ⟨_, rfl, rfl, rfl⟩
    · apply beanVerificationStep_find_self
      rw [calculate_user_streak_cafes]
      simp only []
      rw [applyBeanUpsert_cafes]
      exact hc

lemma drop_bean_already_dropped
    (st : AppState) (cafeId userId : ℕ) (lat lng : ℚ) (now : ℕ) (cafe : CafeRecord)
    (b : Bean)
    (hc : st.cafes.find? (fun c => c.id == cafeId) = some cafe)
    (hd : ¬ (calculate_earth_distance (lat : ℝ) (lng : ℝ)
      (cafe.latitude : ℝ) (cafe.longitude : ℝ) > 50))
    (hb : findBean st cafeId userId = some b)
    (htoday : dateOf b.last_dropped_at = dateOf now) :
    (drop_bean st cafeId userId lat lng now).2 = .error .AlreadyDroppedToday ∧
    (drop_bean st cafeId userId lat lng now).1.beans = st.beans ∧
    (drop_bean st cafeId userId lat lng now).1.beanDrops = st.beanDrops ∧
    (drop_bean st cafeId userId lat lng now).1.users = st.users := by
  unfold drop_bean
  rw [hc]
  simp only []
  rw [if_neg hd]
  rw [show findBean (check_location_consistency st userId lat lng now) cafeId userId =
    findBean st cafeId userId from rfl]
  rw [hb]
  rw [show droppedToday (some b) now = true from by simp [droppedToday, htoday]]
  refine ⟨?_, ?_, ?_, ?_⟩ <;> simp <;> rfl

/-- Claim C4: a first accepted drop on a fresh UTC day increments (or
creates) the bean exactly once and stamps `last_dropped_at` with the drop
time; a second call the same UTC day fails with `AlreadyDroppedToday` and
writes no bean update, no drop event, and no streak update. -/
theorem drop_bean_daily_idempotent
    (st : AppState) (cafeId userId : ℕ) (lat1 lng1 lat2 lng2 : ℚ) (now now' : ℕ)
    (cafe : CafeRecord)
    (hc : st.cafes.find? (fun c => c.id == cafeId) = some cafe)
    (hd1 : ¬ (calculate_earth_distance (lat1 : ℝ) (lng1 : ℝ)
      (cafe.latitude : ℝ) (cafe.longitude : ℝ) > 50))
    (hd2 : ¬ (calculate_earth_distance (lat2 : ℝ) (lng2 : ℝ)
      (cafe.latitude : ℝ) (cafe.longitude : ℝ) > 50))
    (hfresh : droppedToday (findBean st cafeId userId) now = false)
    (hsame : dateOf now' = dateOf now) :
    (∃ res, (drop_bean st cafeId userId lat1 lng1 now).2 = .ok res ∧
      res.drop_count = (match findBean st cafeId userId with
        | some b => b.drop_count + 1
        | none => 1)) ∧
    (∃ b', findBean (drop_bean st cafeId userId lat1 lng1 now).1 cafeId userId = some b' ∧
      b'.last_dropped_at = now ∧
      b'.drop_count = (match findBean st cafeId userId with
        | some b => b.drop_count + 1
        | none => 1)) ∧
    (drop_bean (drop_bean st cafeId userId lat1 lng1 now).1 cafeId userId lat2 lng2 now').2
      = .error .AlreadyDroppedToday ∧
    (drop_bean (drop_bean st cafeId userId lat1 lng1 now).1 cafeId userId lat2 lng2 now').1.beans
      = (drop_bean st cafeId userId lat1 lng1 now).1.beans ∧
    (drop_bean (drop_bean st cafeId userId lat1 lng1 now).1 cafeId userId lat2 lng2 now').1.beanDrops
      = (drop_bean st cafeId userId lat1 lng1 now).1.beanDrops ∧
    (drop_bean (drop_bean st cafeId userId lat1 lng1 now).1 cafeId userId lat2 lng2 now').1.users
      = (drop_bean st cafeId userId lat1 lng1 now).1.users := by
  obtain ⟨hA, hB, hC⟩ := drop_bean_success st cafeId userId lat1 lng1 now cafe hc hd1 hfresh
  obtain ⟨b', hb', hlast, hcount⟩ := hB
  obtain ⟨cafe', hcafe', hlat, hlng⟩ := hC
  have hd2' : ¬ (calculate_earth_distance (lat2 : ℝ) (lng2 : ℝ)
      (cafe'.latitude : ℝ) (cafe'.longitude : ℝ) > 50) := by
    rw [hlat, hlng]; exact hd2
  have htoday : dateOf b'.last_dropped_at = dateOf now' := by rw [hlast, hsame]
  have hfail := drop_bean_already_dropped (drop_bean st cafeId userId lat1 lng1 now).1
    cafeId userId lat2 lng2 now' cafe' b' hcafe' hd2' hb' htoday
  exact ⟨hA, ⟨b', hb', hlast, hcount⟩, hfail.1, hfail.2.1, hfail.2.2.1, hfail.2.2.2⟩

/-- Witness for C4: user 7 drops at `cafeK` (distance 0) on day 5, then
again 100 seconds later the same UTC day. -/
theorem drop_bean_daily_idempotent_witness :
    droppedToday (findBean stK 1 7) 432000 = false ∧
    ((∃ res, (drop_bean stK 1 7 0 0 432000).2 = .ok res ∧
       res.drop_count = (match findBean stK 1 7 with
         | some b => b.drop_count + 1
         | none => 1)) ∧
     (∃ b', findBean (drop_bean stK 1 7 0 0 432000).1 1 7 = some b' ∧
       b'.last_dropped_at = 432000 ∧
       b'.drop_count = (match findBean stK 1 7 with
         | some b => b.drop_count + 1
         | none => 1)) ∧
     (drop_bean (drop_bean stK 1 7 0 0 432000).1 1 7 0 0 432100).2
       = .error .AlreadyDroppedToday ∧
     (drop_bean (drop_bean stK 1 7 0 0 432000).1 1 7 0 0 432100).1.beans
       = (drop_bean stK 1 7 0 0 432000).1.beans ∧
     (drop_bean (drop_bean stK 1 7 0 0 432000).1 1 7 0 0 432100).1.beanDrops
       = (drop_bean stK 1 7 0 0 432000).1.beanDrops ∧
     (drop_bean (drop_bean stK 1 7 0 0 432000).1 1 7 0 0 432100).1.users
       = (drop_bean stK 1 7 0 0 432000).1.users) :=
  ⟨by decide, drop_bean_daily_idempotent stK 1 7 0 0 0 0 432000 432100 cafeK
    (by decide)
    (by show ¬ (calculate_earth_distance ((0 : ℚ) : ℝ) ((0 : ℚ) : ℝ)
          ((0 : ℚ) : ℝ) ((0 : ℚ) : ℝ) > 50)
        rw [calculate_earth_distance_self]
        norm_num)
    (by show ¬ (calculate_earth_distance ((0 : ℚ) : ℝ) ((0 : ℚ) : ℝ)
          ((0 : ℚ) : ℝ) ((0 : ℚ) : ℝ) > 50)
        rw [calculate_earth_distance_self]
        norm_num)
    (by decide) (by decide)⟩

end IBeanThere
